import Mathlib

/-!
Verification development for the AI-Guild project tracker (`src/app.py`).

The program is a CRUD application over a single SQLite table `projects`,
mirrored best-effort to a Google Sheets range (`Projects!A2:I`).  We give a
shallow embedding: the SQLite table becomes a list of rows, the spreadsheet
range becomes a list of cell rows (lists of strings), and the effectful
environment (Sheets connectivity, API exceptions, the wall clock feeding
`CURRENT_TIMESTAMP` / `datetime.now()`) becomes an explicit `Env` record.
Each Python function is translated to a Lean function of the same name over
these states.
-/

/-- One row of the SQLite table `projects` (schema in `init_db`, app.py:223).
`date_added` / `last_updated` are `CURRENT_TIMESTAMP` values, modelled as
abstract instants (`Nat`). -/
structure Row where
  id : Nat
  project_name : String
  one_liner : String
  description : String
  ai_usage : String
  lead_name : String
  whatsapp_contact : String
  status : String
  date_added : Nat
  last_updated : Nat
deriving Repr, DecidableEq

/-- The `project_data` dict passed to `add_project` / `update_project` /
`sync_to_sheets` (built by the Streamlit forms in `main`). -/
structure ProjectData where
  project_name : String
  one_liner : String
  description : String
  ai_usage : String
  lead_name : String
  whatsapp_contact : String
  status : String
deriving Repr, DecidableEq

/-- The SQLite database `ai_projects.db`: the `projects` table plus the
AUTOINCREMENT counter backing the `id` column. -/
structure DB where
  rows : List Row
  nextId : Nat
deriving Repr, DecidableEq

/-- The mirrored spreadsheet range `Projects!A2:I`: a list of cell rows as
returned by `values().get` (`result.get('values', [])`).  A row cleared by
`values().clear` comes back as an empty list. -/
abbrev Sheets : Type := List (List String)

/-- The effectful environment of one operation:
* `connectOk`  — whether `init_google_sheets` returns a service (app.py:67);
* `getRaises`  — whether the `values().get` call inside
  `find_row_in_sheets` raises (caught there, making it return `None`);
* `apiRaises`  — whether the Sheets *write* call of the operation
  (`append` / `update` / `clear` `.execute()`) raises, and with which
  exception text;
* `now`        — the instant `CURRENT_TIMESTAMP` / `datetime.now()` reads;
* `nowStr`     — the string `datetime.now().strftime('%Y-%m-%d %H:%M:%S')`
  renders to. -/
structure Env where
  connectOk : Bool
  getRaises : Bool
  apiRaises : Option String
  now : Nat
  nowStr : String
deriving Repr, DecidableEq

/-! ## Validation (app.py:267-275) -/

/-- Model of `validate_whatsapp` (app.py:267): `bool(re.match(r'^\+\d{1,3}\d{10}$', number))`.
Python `re.match` anchors at the start, `\d{1,3}\d{10}` matches (with
backtracking) any run of 11 to 13 digits, and `$` matches at the end of the
string *or just before a newline at the end of the string* (CPython `re`
semantics without `re.MULTILINE`).  `\d` is modelled as an ASCII digit. -/
def matchContact : List Char → Bool
  | c :: rest =>
      if c = '+' then
        decide (11 ≤ (rest.takeWhile Char.isDigit).length) &&
        decide ((rest.takeWhile Char.isDigit).length ≤ 13) &&
        (decide (rest.dropWhile Char.isDigit = []) ||
         decide (rest.dropWhile Char.isDigit = ['\n']))
      else false
  | [] => false

/-- See `matchContact` for the regex-engine semantics on the characters. -/
def validate_whatsapp (number : String) : Bool :=
  matchContact number.toList

/-- Model of `validate_one_liner` (app.py:271): `len(text) <= 250` (Python `len`
counts code points, as does `String.length`). -/
def validate_one_liner (text : String) : Bool :=
  decide (text.length ≤ 250)

/-- Word accumulator for `pySplit`: walks the characters, collecting the
current word (reversed) in `acc`, emitting it at each whitespace run. -/
def wordsAux : List Char → List Char → List (List Char)
  | [], acc => if acc.isEmpty then [] else [acc.reverse]
  | c :: cs, acc =>
      if c.isWhitespace then
        if acc.isEmpty then wordsAux cs [] else acc.reverse :: wordsAux cs []
      else wordsAux cs (c :: acc)

/-- Model of `text.split()` for `validate_description`: Python `str.split()` with no
argument splits on runs of whitespace and drops empty pieces. -/
def pySplit (s : String) : List String :=
  (wordsAux s.toList []).map (fun w => ⟨w⟩)

/-- Model of `validate_description` (app.py:274): `len(text.split()) <= 100`. -/
def validate_description (text : String) : Bool :=
  decide ((pySplit text).length ≤ 100)

/-! ## Mirror client (app.py:148-218) -/

/-- The loop body of `find_row_in_sheets` (app.py:157-160), given the rows
the `values().get` call returned.  The whole loop runs inside `try:`; the
check is `row[0] == project_name`, so an *empty* row raises `IndexError`,
the `except` catches it and the function returns `None` — modelled by the
`[] :: _` branch aborting the scan. -/
def scanRows (rows : List (List String)) (project_name : String) (idx : Nat) : Option Nat :=
  match rows with
  | [] => none
  | [] :: _ => none
  | (c :: _) :: rest =>
      if c = project_name then some (idx + 2) else scanRows rest project_name (idx + 1)

/-- Model of `find_row_in_sheets` (app.py:148): returns the 1-based sheet row number
(`idx + 2`, the range starts at A2) of the first row whose first cell equals
`project_name`, or `None` — also `None` when any visited row is empty or the
`get` call raises. -/
def find_row_in_sheets (env : Env) (sheets : Sheets) (project_name : String) : Option Nat :=
  if env.getRaises then none else scanRows sheets project_name 0

/-- The `values` row built by `sync_to_sheets` (app.py:173-183): all fields,
a formatted timestamp, and the marker `"Updated"` or `"New Entry"`. -/
def sheetValues (pd : ProjectData) (nowStr : String) (is_update : Bool) : List String :=
  [pd.project_name, pd.one_liner, pd.description, pd.ai_usage, pd.lead_name,
   pd.whatsapp_contact, pd.status, nowStr,
   if is_update then "Updated" else "New Entry"]

/-- Overwrite the sheet row at 0-based index `i` (the `values().update` call
on range `Projects!A{row}:I{row}`). -/
def setSheetRow (sheets : Sheets) (i : Nat) (v : List String) : Sheets :=
  List.set sheets i v

/-- Blank the sheet row at 0-based index `i` (the `values().clear` call):
a cleared row reads back as an empty list. -/
def clearSheetRow (sheets : Sheets) (i : Nat) : Sheets :=
  List.set sheets i []

/-- Model of `sync_to_sheets` (app.py:165): append (`is_update = False`) or
locate-and-update (`is_update = True`) the project's row.  Every exception
inside is caught and turned into `(False, "Error syncing to Google Sheets: …")`;
a failed connection gives `(False, "Failed to connect to Google Sheets")`;
an update whose row is not located gives
`(False, "Project not found in Google Sheets")`. -/
def sync_to_sheets (env : Env) (sheets : Sheets) (pd : ProjectData) (is_update : Bool) :
    (Bool × String) × Sheets :=
  if env.connectOk = false then
    ((false, "Failed to connect to Google Sheets"), sheets)
  else if is_update then
    match find_row_in_sheets env sheets pd.project_name with
    | some rowNum =>
        match env.apiRaises with
        | some e => ((false, "Error syncing to Google Sheets: " ++ e), sheets)
        | none =>
            ((true, "Successfully updated in Google Sheets"),
             setSheetRow sheets (rowNum - 2) (sheetValues pd env.nowStr true))
    | none => ((false, "Project not found in Google Sheets"), sheets)
  else
    match env.apiRaises with
    | some e => ((false, "Error syncing to Google Sheets: " ++ e), sheets)
    | none =>
        ((true, "Successfully added to Google Sheets"),
         sheets ++ [sheetValues pd env.nowStr false])

/-! ## Local store operations (app.py:117-146, 277-349) -/

/-- Model of `get_all_projects` (app.py:277):
`SELECT * FROM projects ORDER BY date_added DESC` — every row, sorted by
`date_added` descending, no LIMIT. -/
def get_all_projects (db : DB) : List Row :=
  db.rows.insertionSort (fun a b => b.date_added ≤ a.date_added)

/-- Row inserted by `add_project`'s INSERT (app.py:324): `id` from
AUTOINCREMENT, both timestamp columns defaulted to `CURRENT_TIMESTAMP`. -/
def insertedRow (pd : ProjectData) (id now : Nat) : Row :=
  { id := id, project_name := pd.project_name, one_liner := pd.one_liner,
    description := pd.description, ai_usage := pd.ai_usage,
    lead_name := pd.lead_name, whatsapp_contact := pd.whatsapp_contact,
    status := pd.status, date_added := now, last_updated := now }

/-- Model of `add_project` (app.py:319): INSERT the row (a duplicate `project_name`
violates the UNIQUE constraint, raising `sqlite3.IntegrityError`, caught as
`(False, "Project name already exists!")` with nothing written), commit,
then `sync_to_sheets`; a mirror failure downgrades the message but the
result stays `True`. -/
def add_project (env : Env) (db : DB) (sheets : Sheets) (pd : ProjectData) :
    (Bool × String) × DB × Sheets :=
  if db.rows.any (fun r => r.project_name = pd.project_name) then
    ((false, "Project name already exists!"), db, sheets)
  else
    let db' : DB := { rows := db.rows ++ [insertedRow pd db.nextId env.now],
                      nextId := db.nextId + 1 }
    let s := sync_to_sheets env sheets pd false
    if s.1.1 then
      ((true, "Project successfully registered and synced to Google Sheets!"), db', s.2)
    else
      ((true, "Project registered in database, but " ++ s.1.2), db', s.2)

/-- The SET clause of `update_project`'s UPDATE (app.py:288): overwrite
every mutable field and `last_updated`, keep `project_name`, `id` and
`date_added`. -/
def updatedRow (pd : ProjectData) (now : Nat) (r : Row) : Row :=
  { r with one_liner := pd.one_liner, description := pd.description,
           ai_usage := pd.ai_usage, lead_name := pd.lead_name,
           whatsapp_contact := pd.whatsapp_contact, status := pd.status,
           last_updated := now }

/-- Model of `update_project` (app.py:283): UPDATE the rows WHERE
`project_name = ?` (zero rows is fine), commit, then
`sync_to_sheets(…, is_update=True)`; a mirror failure downgrades the
message but the result stays `True`. -/
def update_project (env : Env) (db : DB) (sheets : Sheets) (pd : ProjectData) :
    (Bool × String) × DB × Sheets :=
  let db' : DB := { db with rows := db.rows.map (fun r =>
      if r.project_name = pd.project_name then updatedRow pd env.now r else r) }
  let s := sync_to_sheets env sheets pd true
  if s.1.1 then
    ((true, "Project successfully updated and synced to Google Sheets!"), db', s.2)
  else
    ((true, "Project updated in database, but " ++ s.1.2), db', s.2)

/-- Model of `delete_project` (app.py:117): DELETE WHERE `project_name = ?` and
commit; then, on the mirror, a failed connection returns `False` with
"Project deleted from database but failed to connect to Google Sheets"; a
located row is cleared (a raise during `clear` is caught by the *outer*
`except`, returning `(False, "Error deleting project: …")`); an unlocated
row returns `(True, "Project deleted from database")`. -/
def delete_project (env : Env) (db : DB) (sheets : Sheets) (project_name : String) :
    (Bool × String) × DB × Sheets :=
  let db' : DB := { db with rows := db.rows.filter (fun r => r.project_name ≠ project_name) }
  if env.connectOk = false then
    ((false, "Project deleted from database but failed to connect to Google Sheets"),
     db', sheets)
  else
    match find_row_in_sheets env sheets project_name with
    | some rowNum =>
        match env.apiRaises with
        | some e => ((false, "Error deleting project: " ++ e), db', sheets)
        | none =>
            ((true, "Project successfully deleted from database and Google Sheets"),
             db', clearSheetRow sheets (rowNum - 2))
    | none => ((true, "Project deleted from database"), db', sheets)

/-! ## Access gate (app.py:42-65) -/

/-- Python `str.lower()`: lower-case each character. -/
def pyLower (s : String) : String :=
  ⟨s.toList.map Char.toLower⟩

/-- The credential comparison of `check_password` (app.py:57-58):
`username.lower() == ADMIN_USERNAME and
 hashlib.sha256(password.encode()).hexdigest() == ADMIN_PASSWORD`.
The SHA-256 hex digest is an abstract function parameter `sha256hex`. -/
def check_password (sha256hex : String → String)
    (adminUsername adminPassword : String) (username password : String) : Bool :=
  pyLower username = adminUsername && sha256hex password = adminPassword

/-! ## Spec-side characterization of the contact validator

Used to state the amended form of the contact-shape claim. -/

/-- What `validate_whatsapp` actually accepts (amended characterization):
a `'+'`, then a run of 11 to 13 ASCII digits, then either the end of the
string or one final newline (Python `$` also matches just before a newline
at the end of the string). -/
def ContactAmended (s : String) : Prop :=
  ∃ ds t : List Char, s.toList = '+' :: (ds ++ t) ∧ (∀ c ∈ ds, c.isDigit = true) ∧
    11 ≤ ds.length ∧ ds.length ≤ 13 ∧ (t = [] ∨ t = ['\n'])

/-! ## Concrete fixtures (used by witnesses and counterexamples) -/

/-- The seed row `init_db` inserts into an empty database (app.py:249). -/
def sampleRow : Row :=
  { id := 1, project_name := "Sample Project",
    one_liner := "This is a sample project",
    description := "This is a sample description",
    ai_usage := "This project uses AI for demonstration",
    lead_name := "Admin", whatsapp_contact := "+1234567890",
    status := "Idea", date_added := 0, last_updated := 0 }

/-- A store holding just the seed row. -/
def db1 : DB := { rows := [sampleRow], nextId := 2 }

/-- A healthy environment: Sheets reachable, no API exception. -/
def envOk : Env :=
  { connectOk := true, getRaises := false, apiRaises := none,
    now := 1, nowStr := "2025-01-01 00:00:01" }

/-- An environment where `init_google_sheets` fails (returns `None`). -/
def envDown : Env :=
  { connectOk := false, getRaises := false, apiRaises := none,
    now := 1, nowStr := "2025-01-01 00:00:01" }

/-- An environment where the Sheets write call raises `boom`. -/
def envRaise : Env :=
  { connectOk := true, getRaises := false, apiRaises := some "boom",
    now := 1, nowStr := "2025-01-01 00:00:01" }

/-- A fresh, fully valid project submission. -/
def pdNew : ProjectData :=
  { project_name := "New Project", one_liner := "A short one liner",
    description := "A short description", ai_usage := "Uses AI",
    lead_name := "Lead", whatsapp_contact := "+12345678901", status := "MVP" }

/-- An edit of the seed project: same name, every other field changed. -/
def pdEdit : ProjectData :=
  { project_name := "Sample Project", one_liner := "Edited one liner",
    description := "Edited description", ai_usage := "Edited AI usage",
    lead_name := "New Lead", whatsapp_contact := "+23470123456789",
    status := "Launch" }

/-- A later healthy environment (clock strictly after `envOk`). -/
def envOk2 : Env :=
  { connectOk := true, getRaises := false, apiRaises := none,
    now := 2, nowStr := "2025-01-01 00:00:02" }

/-- An edit of `pdNew`: same name, every other field changed. -/
def pdNewEdit : ProjectData :=
  { project_name := "New Project", one_liner := "Changed one liner",
    description := "Changed description", ai_usage := "Changed AI usage",
    lead_name := "Changed Lead", whatsapp_contact := "+4412345678901",
    status := "Launch" }

/-- A submission named "B", for exercising the mirror row locator. -/
def pdB : ProjectData :=
  { project_name := "B", one_liner := "b", description := "b",
    ai_usage := "b", lead_name := "b", whatsapp_contact := "+12345678901",
    status := "Idea" }

/-! ## Store invariant (spec §3; schema and UI constraints) -/

/-- The `status` enumeration: the keys of `PROJECT_STATUSES` (app.py:17),
the only options the Streamlit selectboxes offer. -/
def validStatus (s : String) : Prop :=
  s = "Idea" ∨ s = "MVP" ∨ s = "Launch"

instance (s : String) : Decidable (validStatus s) := by
  unfold validStatus; infer_instance

/-- Invariant on the table contents: project names are unique (the UNIQUE
constraint), every status is one of the three enumerated values, and
`last_updated` never precedes `date_added`. -/
def RowsInv (rows : List Row) : Prop :=
  (rows.map Row.project_name).Nodup ∧
  ∀ r ∈ rows, validStatus r.status ∧ r.date_added ≤ r.last_updated

instance (rows : List Row) : Decidable (RowsInv rows) := by
  unfold RowsInv; infer_instance

/-- The invariant, read off a database state. -/
def StoreInv (db : DB) : Prop := RowsInv db.rows

instance (db : DB) : Decidable (StoreInv db) := by
  unfold StoreInv; infer_instance

/-! ## Helper lemmas -/

/-- Splitting a `takeWhile`/`dropWhile` decomposition: a run satisfying `p`
followed by a list whose head fails `p` is exactly the decomposition. -/
theorem takeWhile_dropWhile_split (p : Char → Bool) (ds t : List Char)
    (h1 : ∀ c ∈ ds, p c = true) (h2 : ∀ c, t.head? = some c → p c = false) :
    (ds ++ t).takeWhile p = ds ∧ (ds ++ t).dropWhile p = t := by
  induction ds with
  | nil =>
      cases t with
      | nil => simp
      | cons c t' =>
          have hc : p c = false := h2 c rfl
          simp [List.takeWhile, List.dropWhile, hc]
  | cons d ds' ih =>
      have hd : p d = true := h1 d (List.mem_cons_self d ds')
      have ih' := ih (fun c hc => h1 c (List.mem_cons_of_mem d hc))
      simp [List.takeWhile, List.dropWhile, hd, ih'.1, ih'.2]

/-- A scan that meets an empty row before any matching row aborts with
`none` (the `row[0]` IndexError is caught by `find_row_in_sheets`). -/
theorem scanRows_abort (pre rest : List (List String)) (name : String)
    (h : ∀ r ∈ pre, r.head? ≠ some name) :
    ∀ idx, scanRows (pre ++ [] :: rest) name idx = none := by
  induction pre with
  | nil => intro idx; rfl
  | cons r pre' ih =>
      intro idx
      cases r with
      | nil => rfl
      | cons c cs =>
          have hc : c ≠ name := by
            intro hcn
            exact h (c :: cs) (List.mem_cons_self _ _) (by simp [hcn])
          simp only [List.cons_append, scanRows, if_neg hc]
          exact ih (fun r hr => h r (List.mem_cons_of_mem _ hr)) (idx + 1)

/-- Under name uniqueness, a present name is carried by exactly one row. -/
theorem filter_name_singleton (rows : List Row) (n : String)
    (hnd : (rows.map Row.project_name).Nodup)
    (hm : n ∈ rows.map Row.project_name) :
    (rows.filter (fun r => r.project_name = n)).length = 1 := by
  induction rows with
  | nil => simp at hm
  | cons r rs ih =>
      simp only [List.map_cons, List.nodup_cons] at hnd
      rcases List.mem_cons.mp hm with heq | hmem
      · have hnone : rs.filter (fun r => r.project_name = n) = [] := by
          rw [List.filter_eq_nil_iff]
          intro a ha hpa
          have hap : a.project_name = n := by simpa using hpa
          exact hnd.1 (List.mem_map.mpr ⟨a, ha, by rw [hap, ← heq]⟩)
        rw [List.filter_cons, if_pos (by simp [heq])]
        simp [hnone]
      · have hne : r.project_name ≠ n := fun he => hnd.1 (he ▸ hmem)
        rw [List.filter_cons, if_neg (by simp [hne])]
        exact ih hnd.2 hmem

/-- Updating rows by a name absent from the store changes nothing. -/
theorem map_update_absent (rows : List Row) (pd : ProjectData) (now : Nat)
    (h : pd.project_name ∉ rows.map Row.project_name) :
    rows.map (fun r => if r.project_name = pd.project_name
      then updatedRow pd now r else r) = rows := by
  induction rows with
  | nil => rfl
  | cons r rs ih =>
      simp only [List.map_cons, List.mem_cons, not_or] at h ⊢
      have hne : r.project_name ≠ pd.project_name := fun he => h.1 he.symm
      rw [if_neg hne, ih h.2]

/-- Deleting by a name absent from the store changes nothing. -/
theorem filter_delete_absent (rows : List Row) (name : String)
    (h : name ∉ rows.map Row.project_name) :
    rows.filter (fun r => r.project_name ≠ name) = rows := by
  induction rows with
  | nil => rfl
  | cons r rs ih =>
      simp only [List.map_cons, List.mem_cons, not_or] at h
      have hne : r.project_name ≠ name := fun he => h.1 he.symm
      rw [List.filter_cons, if_pos (by simp [hne]), ih h.2]

/-! ## Branch-independent shapes of the store operations -/

/-- A name absent from the store falsifies the duplicate test. -/
theorem any_name_false {rows : List Row} {n : String}
    (h : n ∉ rows.map Row.project_name) :
    rows.any (fun r => r.project_name = n) = false := by
  rw [List.any_eq_false]
  intro r hr
  simp only [decide_eq_true_eq]
  exact fun he => h (List.mem_map.mpr ⟨r, hr, he⟩)

/-- A name present in the store satisfies the duplicate test. -/
theorem any_name_true {rows : List Row} {n : String}
    (h : n ∈ rows.map Row.project_name) :
    rows.any (fun r => r.project_name = n) = true := by
  rcases List.mem_map.mp h with ⟨r, hr, he⟩
  exact List.any_eq_true.mpr ⟨r, hr, by simp [he]⟩

/-- On a fresh name, `add_project` appends exactly the inserted row,
whatever the mirror does. -/
theorem add_project_rows_new (env : Env) (db : DB) (sheets : Sheets)
    (pd : ProjectData) (h : pd.project_name ∉ db.rows.map Row.project_name) :
    (add_project env db sheets pd).2.1.rows
      = db.rows ++ [insertedRow pd db.nextId env.now] := by
  cases hs : (sync_to_sheets env sheets pd false).1.1 <;>
    simp [add_project, any_name_false h, hs]

/-- Lemma: `update_project` rewrites exactly the rows carrying the submitted name,
whatever the mirror does. -/
theorem update_project_rows (env : Env) (db : DB) (sheets : Sheets)
    (pd : ProjectData) :
    (update_project env db sheets pd).2.1.rows
      = db.rows.map (fun r => if r.project_name = pd.project_name
          then updatedRow pd env.now r else r) := by
  cases hs : (sync_to_sheets env sheets pd true).1.1 <;>
    simp [update_project, hs]

/-- Lemma: `update_project` always reports success (mirror failures only downgrade
the message, app.py:312-315). -/
theorem update_project_flag (env : Env) (db : DB) (sheets : Sheets)
    (pd : ProjectData) :
    (update_project env db sheets pd).1.1 = true := by
  cases hs : (sync_to_sheets env sheets pd true).1.1 <;>
    simp [update_project, hs]

/-- Lemma: `delete_project` removes exactly the rows carrying the name, whatever
the mirror does. -/
theorem delete_project_rows (env : Env) (db : DB) (sheets : Sheets)
    (name : String) :
    (delete_project env db sheets name).2.1.rows
      = db.rows.filter (fun r => r.project_name ≠ name) := by
  unfold delete_project
  split
  · rfl
  · cases hf : find_row_in_sheets env sheets name with
    | none => simp [hf]
    | some k => cases ha : env.apiRaises <;> simp [hf, ha]

/-! ## Claims -/

/-- C4 counterexample: the claim asserts that `validate_whatsapp` accepts
exactly a `'+'`, 1–3 country-code digits and 10 subscriber digits with no
other trailing characters, and in particular that `"+234701234567"` is
rejected.  The code accepts `"+234701234567"` (its 12 digits backtrack into
a 2-digit country code plus 10 subscriber digits) and also accepts a single
trailing newline (Python `$` matches just before a final newline). -/
theorem validate_whatsapp_claimed_shape_fails :
    validate_whatsapp "+234701234567" = true ∧
    validate_whatsapp "+2347012345678\n" = true := by
  constructor <;> decide

/-- C4 (amended): `validate_whatsapp s` is true iff `s` is a `'+'` followed
by a run of 11 to 13 digits and then either the end of the string or one
final newline; `"+2347012345678"` is accepted, `"+234701234567"` is also
accepted (12 digits: 2-digit country code plus 10 subscriber digits), and
`"2347012345678"` (no `'+'`) is rejected. -/
theorem validate_whatsapp_amended :
    (∀ s : String, validate_whatsapp s = true ↔ ContactAmended s) ∧
    validate_whatsapp "+2347012345678" = true ∧
    validate_whatsapp "+234701234567" = true ∧
    validate_whatsapp "2347012345678" = false := by
  refine ⟨fun s => ?_, by decide, by decide, by decide⟩
  unfold validate_whatsapp ContactAmended
  cases hl : s.toList with
  | nil => simp [hl, matchContact]
  | cons c rest =>
      by_cases hc : c = '+'
      · subst hc
        rw [matchContact, if_pos rfl]
        simp only [Bool.and_eq_true, Bool.or_eq_true, decide_eq_true_eq]
        constructor
        · rintro ⟨⟨h11, h13⟩, ht⟩
          exact ⟨rest.takeWhile Char.isDigit, rest.dropWhile Char.isDigit,
            by rw [List.takeWhile_append_dropWhile],
            fun ch hch => List.mem_takeWhile_imp hch, h11, h13, ht⟩
        · rintro ⟨ds, t, hst, hd, h11, h13, ht⟩
          have hrest : rest = ds ++ t := (List.cons.injEq _ _ _ _).mp hst |>.2
          have hsplit := takeWhile_dropWhile_split Char.isDigit ds t hd
            (fun ch hch => by
              rcases ht with h | h <;> subst h
              · simp at hch
              · simp at hch; subst hch; decide)
          rw [hrest, hsplit.1, hsplit.2]
          exact ⟨⟨h11, h13⟩, ht⟩
      · rw [matchContact, if_neg hc]
        simp only [Bool.false_eq_true, false_iff]
        rintro ⟨ds, t, hst, -, -, -, -⟩
        exact hc ((List.cons.injEq _ _ _ _).mp hst).1

/-- C8: `get_all_projects` returns every stored row (a permutation of the
table, same length — no pagination or limit), sorted by `date_added`
descending (newest first). -/
theorem get_all_projects_complete_sorted (db : DB) :
    (get_all_projects db).Perm db.rows ∧
    (get_all_projects db).Sorted (fun a b => b.date_added ≤ a.date_added) ∧
    (get_all_projects db).length = db.rows.length := by
  haveI h1 : IsTotal Row (fun a b => b.date_added ≤ a.date_added) :=
    ⟨fun a b => Nat.le_total b.date_added a.date_added⟩
  haveI h2 : IsTrans Row (fun a b => b.date_added ≤ a.date_added) :=
    ⟨fun a b c hab hbc => Nat.le_trans hbc hab⟩
  exact ⟨List.perm_insertionSort _ _, List.sorted_insertionSort _ _,
    List.length_insertionSort _ _⟩

/-- C9: the access-gate comparison is case-insensitive in the username
(two submissions whose usernames lower-case identically always agree) and
succeeds exactly when the lower-cased username equals the configured admin
username and the hash of the password equals the configured hash. -/
theorem check_password_case_insensitive_hash (sha256hex : String → String)
    (adminUsername adminPassword u1 u2 p : String)
    (hcase : pyLower u1 = pyLower u2) :
    check_password sha256hex adminUsername adminPassword u1 p
      = check_password sha256hex adminUsername adminPassword u2 p ∧
    (check_password sha256hex adminUsername adminPassword u1 p = true ↔
      pyLower u1 = adminUsername ∧ sha256hex p = adminPassword) := by
  unfold check_password
  rw [hcase]
  exact ⟨rfl, by rw [← hcase]; simp⟩

/-- C9 witness: concrete usernames differing only in case agree, and the
success condition is exactly the lower-case/hash comparison. -/
theorem check_password_case_insensitive_hash_witness :
    check_password (fun s => s ++ "#") "admin" "secret#" "ADmin" "secret"
      = check_password (fun s => s ++ "#") "admin" "secret#" "adMIN" "secret" ∧
    (check_password (fun s => s ++ "#") "admin" "secret#" "ADmin" "secret" = true ↔
      pyLower "ADmin" = "admin" ∧ (fun s => s ++ "#") "secret" = "secret#") :=
  check_password_case_insensitive_hash (fun s => s ++ "#") "admin" "secret#"
    "ADmin" "adMIN" "secret" (by decide)

/-- C1: registering a name that already exists fails with the
duplicate-name message and flag `False`, writes nothing locally, performs
no mirror append, and the store keeps exactly one row for that name with
its original values (the whole state is returned unchanged). -/
theorem add_project_duplicate_name (env : Env) (db : DB) (sheets : Sheets)
    (pd : ProjectData)
    (hnd : (db.rows.map Row.project_name).Nodup)
    (hm : pd.project_name ∈ db.rows.map Row.project_name) :
    add_project env db sheets pd = ((false, "Project name already exists!"), db, sheets) ∧
    (db.rows.filter (fun r => r.project_name = pd.project_name)).length = 1 := by
  refine ⟨?_, filter_name_singleton db.rows pd.project_name hnd hm⟩
  simp [add_project, any_name_true hm]

/-- C1 witness: re-registering the seed project's name on the seeded store
is rejected and leaves the store with its single original row. -/
theorem add_project_duplicate_name_witness :
    add_project envOk db1 [] pdEdit = ((false, "Project name already exists!"), db1, []) ∧
    (db1.rows.filter (fun r => r.project_name = pdEdit.project_name)).length = 1 :=
  add_project_duplicate_name envOk db1 [] pdEdit (by decide) (by decide)

/-- C2: on a valid, fresh submission, when the mirror fails (no connection,
or the append call raises), `add_project` still returns `True`, the row is
in the store, and the message names the Google Sheets failure. -/
theorem add_project_mirror_failure_isolated (env : Env) (db : DB)
    (sheets : Sheets) (pd : ProjectData)
    (hvalid : validate_whatsapp pd.whatsapp_contact = true ∧
      validate_one_liner pd.one_liner = true ∧
      validate_description pd.description = true)
    (hnew : pd.project_name ∉ db.rows.map Row.project_name)
    (hfail : env.connectOk = false ∨ env.apiRaises.isSome = true) :
    (add_project env db sheets pd).1.1 = true ∧
    (add_project env db sheets pd).2.1.rows
      = db.rows ++ [insertedRow pd db.nextId env.now] ∧
    ((add_project env db sheets pd).1.2
        = "Project registered in database, but Failed to connect to Google Sheets" ∨
      ∃ e, env.apiRaises = some e ∧ (add_project env db sheets pd).1.2
        = "Project registered in database, but Error syncing to Google Sheets: " ++ e) := by
  have hany := any_name_false hnew
  by_cases hc : env.connectOk = false
  · have : add_project env db sheets pd
        = ((true, "Project registered in database, but Failed to connect to Google Sheets"),
           { rows := db.rows ++ [insertedRow pd db.nextId env.now],
             nextId := db.nextId + 1 }, sheets) := by
      simp [add_project, sync_to_sheets, hany, hc]
    rw [this]
    exact ⟨rfl, rfl, Or.inl rfl⟩
  · have hct : env.connectOk = true := by
      cases h : env.connectOk
      · exact absurd h hc
      · rfl
    have hsome : env.apiRaises.isSome = true := hfail.resolve_left hc
    obtain ⟨e, he⟩ := Option.isSome_iff_exists.mp hsome
    have : add_project env db sheets pd
        = ((true, "Project registered in database, but Error syncing to Google Sheets: " ++ e),
           { rows := db.rows ++ [insertedRow pd db.nextId env.now],
             nextId := db.nextId + 1 }, sheets) := by
      simp [add_project, sync_to_sheets, hany, hct, he]
      rw [← String.append_assoc]
      congr 1
    rw [this]
    exact ⟨rfl, rfl, Or.inr ⟨e, he, rfl⟩⟩

/-- C2 witness: a valid fresh project registered while the Sheets
connection is down is kept locally, reported as registered, with the
mirror failure named. -/
theorem add_project_mirror_failure_isolated_witness :
    (add_project envDown db1 [] pdNew).1.1 = true ∧
    (add_project envDown db1 [] pdNew).2.1.rows
      = db1.rows ++ [insertedRow pdNew db1.nextId envDown.now] ∧
    ((add_project envDown db1 [] pdNew).1.2
        = "Project registered in database, but Failed to connect to Google Sheets" ∨
      ∃ e, envDown.apiRaises = some e ∧ (add_project envDown db1 [] pdNew).1.2
        = "Project registered in database, but Error syncing to Google Sheets: " ++ e) :=
  add_project_mirror_failure_isolated envDown db1 [] pdNew
    ⟨by decide, by decide, by decide⟩ (by decide) (Or.inl rfl)

/-- C3 counterexample: with the mirror unreachable, `delete_project` on the
seeded store does remove the local row, and its message does say the
project was deleted from the database, but the success flag is `False` —
the claim asserts the flag is `True`. -/
theorem delete_project_unreachable_mirror_flag_false :
    delete_project envDown db1 [] "Sample Project" =
      ((false, "Project deleted from database but failed to connect to Google Sheets"),
       { rows := [], nextId := 2 }, []) := by
  decide

/-- C3 (amended): whatever the mirror does, the local row is deleted; when
the connection fails the result is `False` with a message that still
reports the database delete; when the clear call raises the result is
`False` with a generic error message; only when the row cannot be located
is the result `True` with "Project deleted from database". -/
theorem delete_project_mirror_unreachable (env : Env) (db : DB)
    (sheets : Sheets) (name : String) :
    (delete_project env db sheets name).2.1.rows
      = db.rows.filter (fun r => r.project_name ≠ name) ∧
    (env.connectOk = false →
      (delete_project env db sheets name).1
        = (false, "Project deleted from database but failed to connect to Google Sheets")) ∧
    (∀ e k, env.connectOk = true → env.apiRaises = some e →
      find_row_in_sheets env sheets name = some k →
      (delete_project env db sheets name).1 = (false, "Error deleting project: " ++ e)) ∧
    (env.connectOk = true → find_row_in_sheets env sheets name = none →
      (delete_project env db sheets name).1 = (true, "Project deleted from database")) := by
  refine ⟨delete_project_rows env db sheets name, ?_, ?_, ?_⟩
  · intro hc
    simp [delete_project, hc]
  · intro e k hct he hf
    simp [delete_project, hct, he, hf]
  · intro hct hf
    simp [delete_project, hct, hf]

/-- C3 witness: the seeded store with the connection down (flag `False`,
message reports the database delete), and with a raising clear call on a
sheet that holds the row (flag `False`, generic error). -/
theorem delete_project_mirror_unreachable_witness :
    (delete_project envDown db1 [] "Sample Project").1
      = (false, "Project deleted from database but failed to connect to Google Sheets") ∧
    (delete_project envRaise db1 [["Sample Project"]] "Sample Project").1
      = (false, "Error deleting project: " ++ "boom") :=
  ⟨(delete_project_mirror_unreachable envDown db1 [] "Sample Project").2.1 rfl,
   (delete_project_mirror_unreachable envRaise db1 [["Sample Project"]]
      "Sample Project").2.2.1 "boom" 2 rfl rfl (by decide)⟩

/-- C5: on a name not present in the store (mirror reachable and quiet),
`update_project` is a silent no-op reporting success, `delete_project`
reports no error, and in both cases the store — hence `get_all_projects` —
is unchanged. -/
theorem update_delete_absent_name_noop (env : Env) (db : DB) (sheets : Sheets)
    (pd : ProjectData)
    (habs : pd.project_name ∉ db.rows.map Row.project_name)
    (hok : env.connectOk = true) (hapi : env.apiRaises = none) :
    (update_project env db sheets pd).1.1 = true ∧
    (update_project env db sheets pd).2.1 = db ∧
    get_all_projects (update_project env db sheets pd).2.1 = get_all_projects db ∧
    (delete_project env db sheets pd.project_name).1.1 = true ∧
    (delete_project env db sheets pd.project_name).2.1 = db ∧
    get_all_projects (delete_project env db sheets pd.project_name).2.1
      = get_all_projects db := by
  have hdbu : (update_project env db sheets pd).2.1 = db := by
    have h1 := update_project_rows env db sheets pd
    rw [map_update_absent db.rows pd env.now habs] at h1
    have h2 : (update_project env db sheets pd).2.1.nextId = db.nextId := by
      cases hs : (sync_to_sheets env sheets pd true).1.1 <;>
        simp [update_project, hs]
    cases hu : (update_project env db sheets pd).2.1
    cases db
    simp_all
  have hdbd : (delete_project env db sheets pd.project_name).2.1 = db := by
    have h1 := delete_project_rows env db sheets pd.project_name
    rw [filter_delete_absent db.rows pd.project_name habs] at h1
    have h2 : (delete_project env db sheets pd.project_name).2.1.nextId = db.nextId := by
      unfold delete_project
      split
      · rfl
      · cases hf : find_row_in_sheets env sheets pd.project_name with
        | none => simp [hf]
        | some k => cases ha : env.apiRaises <;> simp [hf, ha]
    cases hu : (delete_project env db sheets pd.project_name).2.1
    cases db
    simp_all
  have hdflag : (delete_project env db sheets pd.project_name).1.1 = true := by
    unfold delete_project
    rw [if_neg (by simp [hok])]
    cases hf : find_row_in_sheets env sheets pd.project_name with
    | none => simp [hf]
    | some k => simp [hf, hapi]
  exact ⟨update_project_flag env db sheets pd, hdbu, by rw [hdbu],
    hdflag, hdbd, by rw [hdbd]⟩

/-- C5 witness: editing or deleting the absent name "New Project" on the
seeded store reports success and leaves the listing unchanged. -/
theorem update_delete_absent_name_noop_witness :
    (update_project envOk db1 [] pdNew).1.1 = true ∧
    (update_project envOk db1 [] pdNew).2.1 = db1 ∧
    get_all_projects (update_project envOk db1 [] pdNew).2.1 = get_all_projects db1 ∧
    (delete_project envOk db1 [] pdNew.project_name).1.1 = true ∧
    (delete_project envOk db1 [] pdNew.project_name).2.1 = db1 ∧
    get_all_projects (delete_project envOk db1 [] pdNew.project_name).2.1
      = get_all_projects db1 :=
  update_delete_absent_name_noop envOk db1 [] pdNew (by decide) rfl rfl

/-- C6: register a project, then edit every field except the name; reading
the store back yields exactly one record for that name, listed by
`get_all_projects`, carrying all the new field values, with `last_updated`
strictly after `date_added` (the edit's timestamp is later than the
registration's). -/
theorem register_edit_roundtrip (env1 env2 : Env) (db : DB) (sheets : Sheets)
    (pd pd' : ProjectData)
    (hnew : pd.project_name ∉ db.rows.map Row.project_name)
    (hname : pd'.project_name = pd.project_name)
    (hclock : env1.now < env2.now) :
    ∃ r : Row,
      (update_project env2 (add_project env1 db sheets pd).2.1
          (add_project env1 db sheets pd).2.2 pd').2.1.rows.filter
        (fun row => row.project_name = pd.project_name) = [r] ∧
      r ∈ get_all_projects (update_project env2 (add_project env1 db sheets pd).2.1
          (add_project env1 db sheets pd).2.2 pd').2.1 ∧
      r.one_liner = pd'.one_liner ∧
      r.description = pd'.description ∧
      r.ai_usage = pd'.ai_usage ∧
      r.lead_name = pd'.lead_name ∧
      r.whatsapp_contact = pd'.whatsapp_contact ∧
      r.status = pd'.status ∧
      r.project_name = pd.project_name ∧
      r.date_added < r.last_updated := by
  have hrows1 := add_project_rows_new env1 db sheets pd hnew
  have hrows2 := update_project_rows env2 (add_project env1 db sheets pd).2.1
      (add_project env1 db sheets pd).2.2 pd'
  rw [hrows1, List.map_append,
      map_update_absent db.rows pd' env2.now (by rw [hname]; exact hnew)] at hrows2
  have hsingle : [insertedRow pd db.nextId env1.now].map
      (fun r => if r.project_name = pd'.project_name
        then updatedRow pd' env2.now r else r)
      = [updatedRow pd' env2.now (insertedRow pd db.nextId env1.now)] := by
    simp only [List.map_cons, List.map_nil]
    rw [if_pos (show (insertedRow pd db.nextId env1.now).project_name
      = pd'.project_name from hname.symm)]
  rw [hsingle] at hrows2
  refine ⟨updatedRow pd' env2.now (insertedRow pd db.nextId env1.now), ?_, ?_,
    rfl, rfl, rfl, rfl, rfl, rfl, rfl, hclock⟩
  · rw [hrows2, List.filter_append]
    have h1 : db.rows.filter (fun row => row.project_name = pd.project_name) = [] :=
      List.filter_eq_nil_iff.mpr
        (fun a ha hpa => hnew (List.mem_map.mpr ⟨a, ha, by simpa using hpa⟩))
    rw [h1]
    simp [updatedRow, insertedRow]
  · unfold get_all_projects
    refine (List.mem_insertionSort _).mpr ?_
    rw [hrows2]
    exact List.mem_append_right _ (List.mem_singleton.mpr rfl)

/-- C6 witness: register `pdNew` at time 1, edit it to `pdNewEdit` at
time 2; the single row for "New Project" carries the edited values and a
strictly later `last_updated`. -/
theorem register_edit_roundtrip_witness :
    ∃ r : Row,
      (update_project envOk2 (add_project envOk db1 [] pdNew).2.1
          (add_project envOk db1 [] pdNew).2.2 pdNewEdit).2.1.rows.filter
        (fun row => row.project_name = pdNew.project_name) = [r] ∧
      r ∈ get_all_projects (update_project envOk2 (add_project envOk db1 [] pdNew).2.1
          (add_project envOk db1 [] pdNew).2.2 pdNewEdit).2.1 ∧
      r.one_liner = pdNewEdit.one_liner ∧
      r.description = pdNewEdit.description ∧
      r.ai_usage = pdNewEdit.ai_usage ∧
      r.lead_name = pdNewEdit.lead_name ∧
      r.whatsapp_contact = pdNewEdit.whatsapp_contact ∧
      r.status = pdNewEdit.status ∧
      r.project_name = pdNew.project_name ∧
      r.date_added < r.last_updated :=
  register_edit_roundtrip envOk envOk2 db1 [] pdNew pdNewEdit
    (by decide) rfl (by decide)

/-- C7: one step of `add_project`, `update_project` (whose row names are
kept pointwise — the name column is immutable) or `delete_project`
preserves the store invariant: unique names, enumerated statuses, and
`date_added ≤ last_updated`, given a well-formed submission and a clock
not behind any stored `date_added`. -/
theorem store_invariants_preserved (env : Env) (db : DB) (sheets : Sheets)
    (pd : ProjectData) (name : String)
    (hinv : StoreInv db) (hst : validStatus pd.status)
    (hclock : ∀ r ∈ db.rows, r.date_added ≤ env.now) :
    StoreInv (add_project env db sheets pd).2.1 ∧
    StoreInv (update_project env db sheets pd).2.1 ∧
    (update_project env db sheets pd).2.1.rows.map Row.project_name
      = db.rows.map Row.project_name ∧
    StoreInv (delete_project env db sheets name).2.1 := by
  have hnames : (update_project env db sheets pd).2.1.rows.map Row.project_name
      = db.rows.map Row.project_name := by
    rw [update_project_rows, List.map_map]
    refine List.map_congr_left (fun r hr => ?_)
    by_cases h : r.project_name = pd.project_name <;>
      simp [Function.comp, h, updatedRow]
  refine ⟨?_, ?_, hnames, ?_⟩
  · by_cases hdup : pd.project_name ∈ db.rows.map Row.project_name
    · have hsame : (add_project env db sheets pd).2.1 = db := by
        simp [add_project, any_name_true hdup]
      rw [hsame]; exact hinv
    · unfold StoreInv RowsInv
      rw [add_project_rows_new env db sheets pd hdup, List.map_append]
      constructor
      · rw [List.nodup_append]
        refine ⟨hinv.1, by simp, fun a ha hb => ?_⟩
        simp only [List.map_cons, List.map_nil, List.mem_singleton] at hb
        rw [hb] at ha
        exact hdup (by simpa [insertedRow] using ha)
      · intro r hr
        rcases List.mem_append.mp hr with h | h
        · exact hinv.2 r h
        · simp only [List.mem_singleton] at h
          rw [h]
          exact ⟨hst, Nat.le_refl _⟩
  · unfold StoreInv RowsInv
    constructor
    · rw [hnames]; exact hinv.1
    · intro r' hr'
      rw [update_project_rows] at hr'
      rcases List.mem_map.mp hr' with ⟨r, hr, he⟩
      by_cases h : r.project_name = pd.project_name
      · rw [if_pos h] at he
        rw [← he]
        exact ⟨hst, hclock r hr⟩
      · rw [if_neg h] at he
        rw [← he]
        exact hinv.2 r hr
  · unfold StoreInv RowsInv
    rw [delete_project_rows]
    constructor
    · exact List.Nodup.sublist
        (List.Sublist.map Row.project_name (List.filter_sublist db.rows)) hinv.1
    · intro r hr
      exact hinv.2 r (List.mem_of_mem_filter hr)

/-- C7 witness: one step of each operation on the seeded store with a valid
fresh submission preserves the invariant. -/
theorem store_invariants_preserved_witness :
    StoreInv (add_project envOk db1 [] pdNew).2.1 ∧
    StoreInv (update_project envOk db1 [] pdNew).2.1 ∧
    (update_project envOk db1 [] pdNew).2.1.rows.map Row.project_name
      = db1.rows.map Row.project_name ∧
    StoreInv (delete_project envOk db1 [] "Sample Project").2.1 :=
  store_invariants_preserved envOk db1 [] pdNew "Sample Project"
    (by decide) (by decide) (by decide)

/-- C10: the mirror row locator aborts on a blanked row: whenever an empty
row precedes the first matching row, `find_row_in_sheets` reports "not
found" even though a matching row exists later in the range; consequently
the replace path of `sync_to_sheets` fails and `delete_project` skips the
clear, leaving the mirrored row in place. -/
theorem find_row_aborts_on_blanked_row (env : Env)
    (pre post : List (List String)) (name : String) (row : List String)
    (hpre : ∀ r ∈ pre, r.head? ≠ some name)
    (hrow : row.head? = some name)
    (hget : env.getRaises = false) (hok : env.connectOk = true) :
    row ∈ pre ++ [] :: (post ++ [row]) ∧ row.head? = some name ∧
    find_row_in_sheets env (pre ++ [] :: (post ++ [row])) name = none ∧
    (∀ pd : ProjectData, pd.project_name = name →
      (sync_to_sheets env (pre ++ [] :: (post ++ [row])) pd true).1
        = (false, "Project not found in Google Sheets")) ∧
    (∀ db : DB,
      (delete_project env db (pre ++ [] :: (post ++ [row])) name).1
        = (true, "Project deleted from database") ∧
      (delete_project env db (pre ++ [] :: (post ++ [row])) name).2.2
        = pre ++ [] :: (post ++ [row])) := by
  have hfind : find_row_in_sheets env (pre ++ [] :: (post ++ [row])) name = none := by
    unfold find_row_in_sheets
    rw [if_neg (by simp [hget])]
    exact scanRows_abort pre (post ++ [row]) name hpre 0
  refine ⟨?_, hrow, hfind, ?_, ?_⟩
  · exact List.mem_append_right _
      (List.mem_cons_of_mem _ (List.mem_append_right _ (List.mem_singleton.mpr rfl)))
  · intro pd hpd
    simp [sync_to_sheets, hok, hpd, hfind]
  · intro db
    constructor <;> simp [delete_project, hok, hfind]

/-- C10 witness: on the concrete range [["A"], [], ["B"]] the locator
misses "B", the replace path fails, and delete skips the clear. -/
theorem find_row_aborts_on_blanked_row_witness :
    find_row_in_sheets envOk [["A"], [], ["B"]] "B" = none ∧
    (sync_to_sheets envOk [["A"], [], ["B"]] pdB true).1
      = (false, "Project not found in Google Sheets") ∧
    (delete_project envOk db1 [["A"], [], ["B"]] "B").1
      = (true, "Project deleted from database") ∧
    (delete_project envOk db1 [["A"], [], ["B"]] "B").2.2 = [["A"], [], ["B"]] :=
  ⟨(find_row_aborts_on_blanked_row envOk [["A"]] [] "B" ["B"]
      (by decide) rfl rfl rfl).2.2.1,
   (find_row_aborts_on_blanked_row envOk [["A"]] [] "B" ["B"]
      (by decide) rfl rfl rfl).2.2.2.1 pdB rfl,
   ((find_row_aborts_on_blanked_row envOk [["A"]] [] "B" ["B"]
      (by decide) rfl rfl rfl).2.2.2.2 db1).1,
   ((find_row_aborts_on_blanked_row envOk [["A"]] [] "B" ["B"]
      (by decide) rfl rfl rfl).2.2.2.2 db1).2⟩
